import Mathlib

/-!
Shallow embedding of the lead-capture backend's logic core:
the qualification rule engine (`app/services/qualification.py`),
the input sanitizer (`app/utils/sanitizer.py`),
the CSRF token store (`app/routers/csrf.py`),
and the rate limiter (`app/middleware/rate_limiter.py`).

Python machine types are modelled as follows: `str` as `String`
(processed as `List Char` where character-level work is needed),
`Optional[x]` as `Option x`, timestamps (`time.time()` floats and
`datetime` instants, both only compared and shifted by constants)
as `Int` resp. `Nat` seconds, Python `dict` as an association list
preserving insertion order, with update-in-place semantics.
-/

/-- `QualificationStatus` from `app/models.py`: qualified / disqualified / pending. -/
inductive QualificationStatus where
  | qualified
  | disqualified
  | pending
  deriving DecidableEq, Repr

/-- `determine_qualification_status` from `app/services/qualification.py`.
Python membership `x in [a, b]` on an `Optional[str]` is equality with one
of the elements (and `None` is never equal to a string); `has_budget is False`
is equality with `some false`. -/
def determine_qualification_status (has_budget : Option Bool)
    (budget_range : Option String) (urgency : Option String) : QualificationStatus :=
  if has_budget = some false then
    QualificationStatus.disqualified
  else if budget_range = some "under-5k" then
    QualificationStatus.disqualified
  else if budget_range = some "15k-30k" ∨ budget_range = some "over-30k" then
    QualificationStatus.qualified
  else if urgency = some "immediate" ∨ urgency = some "within-month" then
    QualificationStatus.qualified
  else if budget_range = some "5k-15k" ∨ urgency = some "few-months" then
    QualificationStatus.pending
  else
    QualificationStatus.pending

/-- `get_disqualification_reason` from `app/services/qualification.py`. -/
def get_disqualification_reason (has_budget : Option Bool)
    (budget_range : Option String) (urgency : Option String) : Option String :=
  if has_budget = some false then
    some "No budget allocated for treatment"
  else if budget_range = some "under-5k" then
    some "Budget below minimum treatment cost"
  else
    none

/-- Python whitespace, as used by `str.strip` and the regex class `\s`
(ASCII range; the sanitizer's inputs are modelled over it). -/
def isPySpace (c : Char) : Bool :=
  c == ' ' || c == '\t' || c == '\n' || c == '\r' || c == '\x0b' || c == '\x0c'

/-- Python `str.strip()`: drop leading and trailing whitespace. -/
def pyStrip (cs : List Char) : List Char :=
  ((cs.dropWhile isPySpace).reverse.dropWhile isPySpace).reverse

/-- Whether `pat` is a prefix of the second list. -/
def listStartsWith : List Char → List Char → Bool
  | [], _ => true
  | _ :: _, [] => false
  | p :: ps, c :: cs => p == c && listStartsWith ps cs

/-- One fuelled step of Python `str.replace`: at each position, if `pat`
matches, emit `rep` and continue after the match, else keep the character.
Fuel bounds the recursion; `pyReplace` supplies enough for the whole input. -/
def pyReplaceAux (pat rep : List Char) : Nat → List Char → List Char
  | _, [] => []
  | 0, cs => cs
  | fuel + 1, c :: cs =>
    if listStartsWith pat (c :: cs) then
      rep ++ pyReplaceAux pat rep fuel ((c :: cs).drop pat.length)
    else
      c :: pyReplaceAux pat rep fuel cs

/-- Python `s.replace(pat, rep)` (left-to-right, non-overlapping). -/
def pyReplace (cs pat rep : List Char) : List Char :=
  pyReplaceAux pat rep cs.length cs

/-- CPython `html.escape(s)` with its default `quote=True`: five sequential
`str.replace` passes, ampersand first. -/
def html_escape (cs : List Char) : List Char :=
  let s1 := pyReplace cs ['&'] "&amp;".data
  let s2 := pyReplace s1 ['<'] "&lt;".data
  let s3 := pyReplace s2 ['>'] "&gt;".data
  let s4 := pyReplace s3 ['"'] "&quot;".data
  pyReplace s4 ['\''] "&#x27;".data

/-- Case-insensitive character equality, for the regex flag `re.IGNORECASE`. -/
def ciEq (a b : Char) : Bool := a.toLower == b.toLower

/-- Whether `pat` is a case-insensitive prefix of the second list. -/
def listStartsWithCI : List Char → List Char → Bool
  | [], _ => true
  | _ :: _, [] => false
  | p :: ps, c :: cs => ciEq p c && listStartsWithCI ps cs

/-- Offset of the first case-insensitive occurrence of the literal close tag,
used for the lazy `.*?` in the script regex: the lazy part stops at the
earliest position where the rest of the pattern matches. -/
def findCloseScript : List Char → Option Nat
  | [] => none
  | c :: cs =>
    if listStartsWithCI "</script>".data (c :: cs) then some 0
    else (findCloseScript cs).map (· + 1)

/-- Length of a match of the sanitizer regex pattern
(open script tag, then any non-gt run, a gt, a lazy body, and the close tag;
`re.IGNORECASE | re.DOTALL`) at the head of `cs`, if any. The greedy
non-gt class and the literal that follows it are deterministic (the class
excludes the only character the literal accepts), so no backtracking arises. -/
def matchScriptAt (cs : List Char) : Option Nat :=
  if listStartsWithCI "<script".data cs then
    let r1 := cs.drop 7
    let attrs := r1.takeWhile (fun c => c != '>')
    match r1.drop attrs.length with
    | '>' :: r3 =>
      (findCloseScript r3).map (fun k => 7 + attrs.length + 1 + k + 9)
    | _ => none
  else none

/-- `re.sub` scan for the script pattern: at each position try to match;
on a match emit nothing and continue after it, else keep one character.
Matches are at least one character long, so fuel equal to the input length
covers the whole scan. -/
def reSubScriptAux : Nat → List Char → List Char
  | 0, cs => cs
  | fuel + 1, cs =>
    match matchScriptAt cs with
    | some n => reSubScriptAux fuel (cs.drop n)
    | none =>
      match cs with
      | [] => []
      | c :: rest => c :: reSubScriptAux fuel rest

/-- `re.sub(script_pattern, "", cs, re.IGNORECASE | re.DOTALL)`. -/
def reSubScript (cs : List Char) : List Char := reSubScriptAux cs.length cs

/-- Python regex `\w` (ASCII range). -/
def isWordChar (c : Char) : Bool := c.isAlphanum || c == '_'

/-- A double or single quote, the class used by the event-handler pattern. -/
def isQuoteChar (c : Char) : Bool := c == '"' || c == '\''

/-- Length of a match of the event-handler pattern
(letters o n, a nonempty word run, optional spaces, an equals sign, optional
spaces, an optional quote, a non-quote run, an optional quote;
`re.IGNORECASE`) at the head of `cs`, if any. Every quantified piece here is
deterministic: the word run cannot be shortened because neither a space nor
an equals sign is a word character, and everything after the equals sign can
match the empty string, so the greedy choices never backtrack. -/
def matchEventAt (cs : List Char) : Option Nat :=
  if listStartsWithCI "on".data cs then
    let r1 := cs.drop 2
    let w := r1.takeWhile isWordChar
    if w.length == 0 then none
    else
      let r2 := r1.drop w.length
      let sp1 := r2.takeWhile isPySpace
      match r2.drop sp1.length with
      | '=' :: r3 =>
        let sp2 := r3.takeWhile isPySpace
        let r4 := r3.drop sp2.length
        let q1 : Nat :=
          match r4 with
          | c :: _ => if isQuoteChar c then 1 else 0
          | [] => 0
        let r5 := r4.drop q1
        let body := r5.takeWhile (fun c => !isQuoteChar c)
        let r6 := r5.drop body.length
        let q2 : Nat :=
          match r6 with
          | c :: _ => if isQuoteChar c then 1 else 0
          | [] => 0
        some (2 + w.length + sp1.length + 1 + sp2.length + q1 + body.length + q2)
      | _ => none
  else none

/-- `re.sub` scan for the event-handler pattern, fuelled like the script one. -/
def reSubEventAux : Nat → List Char → List Char
  | 0, cs => cs
  | fuel + 1, cs =>
    match matchEventAt cs with
    | some n => reSubEventAux fuel (cs.drop n)
    | none =>
      match cs with
      | [] => []
      | c :: rest => c :: reSubEventAux fuel rest

/-- `re.sub(event_handler_pattern, "", cs, re.IGNORECASE)`. -/
def reSubEvent (cs : List Char) : List Char := reSubEventAux cs.length cs

/-- `sanitize_text` from `app/utils/sanitizer.py`: empty in, empty out;
otherwise truncate to `max_length`, HTML-escape, strip script regions,
strip event-handler patterns, then trim. -/
def sanitize_text (text : String) (max_length : Nat := 1000) : String :=
  if text = "" then ""
  else
    let t1 := text.data.take max_length
    let t2 := html_escape t1
    let t3 := reSubScript t2
    let t4 := reSubEvent t3
    String.mk (pyStrip t4)

/-- The characters the phone sanitizer keeps: digits, whitespace, hyphen,
plus, parentheses (the complement of the removed class). -/
def isPhoneChar (c : Char) : Bool :=
  c.isDigit || isPySpace c || c == '-' || c == '+' || c == '(' || c == ')'

/-- `sanitize_phone` from `app/utils/sanitizer.py`: absent/empty input gives
absent; otherwise keep only phone characters, and if that leaves nothing
return absent (the final `if phone` truthiness check), else the trimmed rest. -/
def sanitize_phone (phone : Option String) : Option String :=
  match phone with
  | none => none
  | some p =>
    if p = "" then none
    else
      let cleaned := p.data.filter isPhoneChar
      if cleaned = [] then none
      else some (String.mk (pyStrip cleaned))

/-- C1: rule precedence of `determine_qualification_status`: an explicit
`has_budget = false` disqualifies whatever the budget range and urgency are
(in particular on the triple (false, 15k-30k, immediate)), and
`budget_range = "under-5k"` disqualifies for every remaining budget flag even
when urgency is immediate (rule 2 beats rule 4). -/
theorem c1_classify_precedence (hb : Option Bool) (br ur : Option String) :
    determine_qualification_status (some false) br ur = QualificationStatus.disqualified ∧
    determine_qualification_status hb (some "under-5k") ur = QualificationStatus.disqualified ∧
    determine_qualification_status (some false) (some "15k-30k") (some "immediate") =
      QualificationStatus.disqualified ∧
    determine_qualification_status none (some "under-5k") (some "immediate") =
      QualificationStatus.disqualified := by
  refine ⟨by simp [determine_qualification_status], ?_, by decide, by decide⟩
  by_cases h : hb = some false <;>
    simp [determine_qualification_status, h]

/-- C2: `get_disqualification_reason` yields a non-empty text exactly when
`determine_qualification_status` yields `disqualified` on the same inputs,
and on inputs not classified `disqualified` the reason is absent. -/
theorem c2_reason_iff_disqualified (hb : Option Bool) (br ur : Option String) :
    ((∃ s : String, get_disqualification_reason hb br ur = some s ∧ s ≠ "") ↔
      determine_qualification_status hb br ur = QualificationStatus.disqualified) ∧
    (determine_qualification_status hb br ur ≠ QualificationStatus.disqualified →
      get_disqualification_reason hb br ur = none) := by
  by_cases h1 : hb = some false
  · simp [determine_qualification_status, get_disqualification_reason, h1]
  · by_cases h2 : br = some "under-5k"
    · simp [determine_qualification_status, get_disqualification_reason, h1, h2]
    · by_cases h3 : br = some "15k-30k" ∨ br = some "over-30k"
      · simp [determine_qualification_status, get_disqualification_reason, h1, h2, h3]
      · by_cases h4 : ur = some "immediate" ∨ ur = some "within-month"
        · simp [determine_qualification_status, get_disqualification_reason, h1, h2, h3, h4]
        · by_cases h5 : br = some "5k-15k" ∨ ur = some "few-months" <;>
            simp [determine_qualification_status, get_disqualification_reason,
              h1, h2, h3, h4, h5]

/-- C3 counterexample: on the script-tag input the sanitizer does not return
the bare remainder, because escaping happens before the script-strip pass and
the pattern needs a literal opening angle bracket, which escaping removed. -/
theorem c3_counterexample :
    ¬ sanitize_text "<script>alert(1)</script>Hello" 1000 = "Hello" := by
  decide

/-- C3 amended: the sanitizer returns the whole input HTML-escaped: the
script region is kept in escaped form, not removed, since the strip pass runs
on already-escaped text where its pattern cannot match. -/
theorem c3_amended :
    sanitize_text "<script>alert(1)</script>Hello" 1000 =
      "&lt;script&gt;alert(1)&lt;/script&gt;Hello" := by
  decide

/-- C9 counterexample: a non-empty input all of whose characters are removed
by cleaning yields absent, not the (empty) cleaned text the claim requires. -/
theorem c9_counterexample :
    sanitize_phone (some "abc") = none ∧ "abc" ≠ "" := by
  decide

/-- C9 amended: absent input gives absent, and a present input gives absent
exactly when filtering it down to phone characters leaves nothing (this covers
the empty input); otherwise the kept characters, trimmed — which can still be
the empty text, as for an all-whitespace input. -/
theorem c9_amended (p : String) :
    sanitize_phone none = none ∧
    sanitize_phone (some p) =
      (if p.data.filter isPhoneChar = [] then none
       else some (String.mk (pyStrip (p.data.filter isPhoneChar)))) ∧
    sanitize_phone (some " ") = some "" := by
  refine ⟨rfl, ?_, by decide⟩
  by_cases hp : p = ""
  · subst hp; decide
  · simp [sanitize_phone, hp]

/-- C10: the sanitizer's output is not bounded by `max_length`: escaping runs
after truncation, so an input whose first `max_length` characters escape to
something longer produces an output strictly longer than `max_length`. -/
theorem c10_output_exceeds_max_length :
    ∃ (s : String) (n : Nat), n < (sanitize_text s n).length := by
  exact ⟨"&&&&", 4, by decide⟩

/-- Lookup in an insertion-ordered association list modelling a Python `dict`. -/
def dictFind {α : Type} : List (String × α) → String → Option α
  | [], _ => none
  | (k, v) :: t, key => if k = key then some v else dictFind t key

/-- Python `d[key] = v`: replace in place if the key exists, else append. -/
def dictInsert {α : Type} : List (String × α) → String → α → List (String × α)
  | [], key, v => [(key, v)]
  | (k, w) :: t, key, v =>
    if k = key then (key, v) :: t else (k, w) :: dictInsert t key v

/-- Python `del d[key]`. -/
def dictErase {α : Type} : List (String × α) → String → List (String × α)
  | [], _ => []
  | (k, w) :: t, key => if k = key then t else (k, w) :: dictErase t key

/-- `TOKEN_EXPIRY_MINUTES` from `app/routers/csrf.py`. -/
def TOKEN_EXPIRY_MINUTES : Nat := 30

/-- `clean_expired_tokens`: drop every entry whose expiry is before `now`.
The store maps a token digest to its absolute expiry in seconds. -/
def clean_expired_tokens (now : Nat) (store : List (String × Nat)) :
    List (String × Nat) :=
  store.filter (fun p => !decide (p.2 < now))

/-- `generate_csrf_token`: prune expired entries, then record the digest of
the fresh token with an expiry thirty minutes out and return the plaintext
token with that expiry. The randomly drawn token and the digest function are
inputs of the model; the store is passed explicitly instead of being a
module-level mutable dict. -/
def generate_csrf_token (hash : String → String) (token : String) (now : Nat)
    (store : List (String × Nat)) : (String × Nat) × List (String × Nat) :=
  let cleaned := clean_expired_tokens now store
  let expiry := now + TOKEN_EXPIRY_MINUTES * 60
  ((token, expiry), dictInsert cleaned (hash token) expiry)

/-- `refresh_csrf_token` just calls straight back into token generation. -/
def refresh_csrf_token : (String → String) → String → Nat →
    List (String × Nat) → (String × Nat) × List (String × Nat) :=
  generate_csrf_token

/-- `verify_csrf_token`: empty token fails; unknown digest fails; a known but
expired digest is deleted and fails; otherwise succeed without mutating. -/
def verify_csrf_token (hash : String → String) (now : Nat) (token : String)
    (store : List (String × Nat)) : Bool × List (String × Nat) :=
  if token = "" then (false, store)
  else
    let token_hash := hash token
    match dictFind store token_hash with
    | none => (false, store)
    | some expiry =>
      if expiry < now then (false, dictErase store token_hash)
      else (true, store)

theorem dictFind_insert_self {α : Type} (l : List (String × α)) (k : String) (v : α) :
    dictFind (dictInsert l k v) k = some v := by
  induction l with
  | nil => simp [dictInsert, dictFind]
  | cons p t ih =>
    obtain ⟨k', w⟩ := p
    by_cases h : k' = k
    · simp [dictInsert, dictFind, h]
    · simp [dictInsert, dictFind, h, ih]

theorem dictFind_insert_ne {α : Type} (l : List (String × α)) (k k' : String) (v : α)
    (h : k' ≠ k) : dictFind (dictInsert l k v) k' = dictFind l k' := by
  have hk : ¬ k = k' := fun hh => h hh.symm
  induction l with
  | nil => simp [dictInsert, dictFind, hk]
  | cons p t ih =>
    obtain ⟨k0, w⟩ := p
    by_cases h0 : k0 = k
    · subst h0
      simp [dictInsert, dictFind, hk]
    · by_cases h1 : k0 = k'
      · simp [dictInsert, dictFind, h0, h1, h]
      · simp [dictInsert, dictFind, h0, h1, ih]

theorem dictFind_filter_of_kept {α : Type} (l : List (String × α)) (k : String)
    (v : α) (p : String × α → Bool) (hfind : dictFind l k = some v)
    (hp : p (k, v) = true) : dictFind (l.filter p) k = some v := by
  induction l with
  | nil => simp [dictFind] at hfind
  | cons q t ih =>
    obtain ⟨k0, w⟩ := q
    by_cases h0 : k0 = k
    · subst h0
      simp [dictFind] at hfind
      subst hfind
      simp [List.filter_cons, hp, dictFind]
    · simp [dictFind, h0] at hfind
      have hrec := ih hfind
      by_cases hq : p (k0, w) = true
      · simp [List.filter_cons, hq, dictFind, h0, hrec]
      · simp [List.filter_cons, hq, hrec]

/-- C4: `verify_csrf_token` fails on the empty token, fails and leaves the
store alone when the digest is unknown, deletes the entry and fails when the
digest is known but its expiry already passed, succeeds without mutating the
store when the digest is known and unexpired, and therefore a second
verification of that same still-valid token succeeds as well. -/
theorem c4_verify_behavior (hash : String → String) (now : Nat) (token : String)
    (store : List (String × Nat)) (e : Nat) :
    (verify_csrf_token hash now "" store = (false, store)) ∧
    (dictFind store (hash token) = none →
      verify_csrf_token hash now token store = (false, store)) ∧
    (token ≠ "" → dictFind store (hash token) = some e → e < now →
      verify_csrf_token hash now token store = (false, dictErase store (hash token))) ∧
    (token ≠ "" → dictFind store (hash token) = some e → ¬ e < now →
      verify_csrf_token hash now token store = (true, store)) ∧
    (token ≠ "" → dictFind store (hash token) = some e → ¬ e < now →
      (verify_csrf_token hash now token
        ((verify_csrf_token hash now token store).2)).1 = true) := by
  refine ⟨by simp [verify_csrf_token], ?_, ?_, ?_, ?_⟩
  · intro hnone
    by_cases ht : token = ""
    · simp [verify_csrf_token, ht]
    · simp [verify_csrf_token, ht, hnone]
  · intro ht hfind hexp
    simp [verify_csrf_token, ht, hfind, hexp]
  · intro ht hfind hexp
    simp [verify_csrf_token, ht, hfind, hexp]
  · intro ht hfind hexp
    simp [verify_csrf_token, ht, hfind, hexp]

/-- Witness for C4 on a concrete digest function, store and clock. -/
theorem c4_verify_behavior_witness :
    verify_csrf_token (fun s => s ++ "#") 50 "t" [("t#", 100)] = (true, [("t#", 100)]) ∧
    verify_csrf_token (fun s => s ++ "#") 200 "t" [("t#", 100)] = (false, []) ∧
    verify_csrf_token (fun s => s ++ "#") 50 "x" [("t#", 100)] = (false, [("t#", 100)]) ∧
    verify_csrf_token (fun s => s ++ "#") 50 "" [("t#", 100)] = (false, [("t#", 100)]) := by
  refine ⟨?_, ?_, ?_, ?_⟩
  · exact (c4_verify_behavior (fun s => s ++ "#") 50 "t" [("t#", 100)] 100).2.2.2.1
      (by decide) (by decide) (by decide)
  · have h := (c4_verify_behavior (fun s => s ++ "#") 200 "t" [("t#", 100)] 100).2.2.1
      (by decide) (by decide) (by decide)
    rw [h]; decide
  · exact (c4_verify_behavior (fun s => s ++ "#") 50 "x" [("t#", 100)] 0).2.1 (by decide)
  · exact (c4_verify_behavior (fun s => s ++ "#") 50 "" [("t#", 100)] 0).1

/-- C5: `refresh_csrf_token` is the very same operation as
`generate_csrf_token`, and refreshing does not invalidate the earlier token:
after issuing a first token and then refreshing, both the first and the
second token verify true at any instant before their respective expiries
(the refresh-time pruning only drops already-expired entries). -/
theorem c5_refresh_keeps_old_token (hash : String → String) (t1 t2 : String)
    (now1 now2 now3 : Nat) (store : List (String × Nat))
    (h1 : t1 ≠ "") (h2 : t2 ≠ "") (hne : hash t1 ≠ hash t2)
    (hkeep : ¬ now1 + TOKEN_EXPIRY_MINUTES * 60 < now2)
    (hv1 : ¬ now1 + TOKEN_EXPIRY_MINUTES * 60 < now3)
    (hv2 : ¬ now2 + TOKEN_EXPIRY_MINUTES * 60 < now3) :
    refresh_csrf_token = generate_csrf_token ∧
    (verify_csrf_token hash now3 t1
      ((refresh_csrf_token hash t2 now2
        ((generate_csrf_token hash t1 now1 store).2)).2)).1 = true ∧
    (verify_csrf_token hash now3 t2
      ((refresh_csrf_token hash t2 now2
        ((generate_csrf_token hash t1 now1 store).2)).2)).1 = true := by
  refine ⟨rfl, ?_, ?_⟩
  · have hfind1 :
        dictFind ((generate_csrf_token hash t1 now1 store).2) (hash t1) =
          some (now1 + TOKEN_EXPIRY_MINUTES * 60) := by
      simp [generate_csrf_token, dictFind_insert_self]
    have hkept :
        dictFind (clean_expired_tokens now2 ((generate_csrf_token hash t1 now1 store).2))
          (hash t1) = some (now1 + TOKEN_EXPIRY_MINUTES * 60) := by
      apply dictFind_filter_of_kept _ _ _ _ hfind1
      simp [hkeep]
    have hfind2 :
        dictFind ((refresh_csrf_token hash t2 now2
          ((generate_csrf_token hash t1 now1 store).2)).2) (hash t1) =
          some (now1 + TOKEN_EXPIRY_MINUTES * 60) := by
      show dictFind (dictInsert _ (hash t2) _) (hash t1) = _
      rw [dictFind_insert_ne _ _ _ _ hne]
      exact hkept
    simp [verify_csrf_token, h1, hfind2, hv1]
  · have hfind2 :
        dictFind ((refresh_csrf_token hash t2 now2
          ((generate_csrf_token hash t1 now1 store).2)).2) (hash t2) =
          some (now2 + TOKEN_EXPIRY_MINUTES * 60) := by
      show dictFind (dictInsert _ (hash t2) _) (hash t2) = _
      exact dictFind_insert_self _ _ _
    simp [verify_csrf_token, h2, hfind2, hv2]

/-- Witness for C5 on a concrete digest function, tokens and clock. -/
theorem c5_refresh_keeps_old_token_witness :
    (verify_csrf_token (fun s => s ++ "#") 20 "a"
      ((refresh_csrf_token (fun s => s ++ "#") "b" 10
        ((generate_csrf_token (fun s => s ++ "#") "a" 0 []).2)).2)).1 = true ∧
    (verify_csrf_token (fun s => s ++ "#") 20 "b"
      ((refresh_csrf_token (fun s => s ++ "#") "b" 10
        ((generate_csrf_token (fun s => s ++ "#") "a" 0 []).2)).2)).1 = true := by
  have h := c5_refresh_keeps_old_token (fun s => s ++ "#") "a" "b" 0 10 20 []
    (by decide) (by decide) (by decide) (by decide) (by decide) (by decide)
  exact ⟨h.2.1, h.2.2⟩

/-- Whether `sub` occurs as a contiguous run in the second list
(Python `sub in hay` on strings). -/
def hasSub (sub : List Char) : List Char → Bool
  | [] => listStartsWith sub []
  | c :: cs => listStartsWith sub (c :: cs) || hasSub sub cs

/-- Python `sub in hay` for strings. -/
def pyIn (sub hay : String) : Bool := hasSub sub.data hay.data

/-- The rate-limit slice of `Settings` from `app/config.py`; integer limits
are Python ints parsed from the environment, modelled as `Int`. -/
structure Settings where
  RATE_LIMIT_ENABLED : Bool
  RATE_LIMIT_SUBMIT_ASSESSMENT : Int
  RATE_LIMIT_SAVE_PROGRESS : Int
  RATE_LIMIT_SEND_EMAIL : Int
  RATE_LIMIT_HEALTH : Int

/-- The default configuration values from `app/config.py`. -/
def defaultSettings : Settings :=
  { RATE_LIMIT_ENABLED := true
    RATE_LIMIT_SUBMIT_ASSESSMENT := 5
    RATE_LIMIT_SAVE_PROGRESS := 30
    RATE_LIMIT_SEND_EMAIL := 3
    RATE_LIMIT_HEALTH := 100 }

/-- `RateLimiter.get_limit` from `app/middleware/rate_limiter.py`:
substring matching against the known paths, first match wins, default 60. -/
def get_limit (settings : Settings) (endpoint : String) : Int :=
  if pyIn "/api/assessment/submit" endpoint then settings.RATE_LIMIT_SUBMIT_ASSESSMENT
  else if pyIn "/api/assessment/save-progress" endpoint then settings.RATE_LIMIT_SAVE_PROGRESS
  else if pyIn "/api/email/send-results" endpoint then settings.RATE_LIMIT_SEND_EMAIL
  else if pyIn "/health" endpoint then settings.RATE_LIMIT_HEALTH
  else 60

/-- The mutable `self.requests` dict of `RateLimiter`, keyed by the composite
string built from client and endpoint; timestamps in seconds. -/
structure RateLimiterState where
  requests : List (String × List Int)
  deriving DecidableEq, Repr

/-- `self.window_seconds` set in `RateLimiter.__init__` (15 minutes). -/
def window_seconds : Int := 900

/-- Python `min` on a nonempty list (the code only calls it on a list whose
length reaches the limit; on the empty list Python would raise, modelled
here by a junk value that no reachable call observes for positive limits). -/
def listMin : List Int → Int
  | [] => 0
  | [t] => t
  | t :: ts => min t (listMin ts)

/-- `RateLimiter.check_rate_limit`: disabled means always allow; otherwise
prune the key's window, deny with a retry-after when the pruned count has
reached the limit (storing the pruned list), else record `now` and allow. -/
def check_rate_limit (settings : Settings) (st : RateLimiterState) (now : Int)
    (ip endpoint : String) : (Bool × Int) × RateLimiterState :=
  if !settings.RATE_LIMIT_ENABLED then ((true, 0), st)
  else
    let limit := get_limit settings endpoint
    let key := ip ++ ":" ++ endpoint
    let window_start := now - window_seconds
    let times := (dictFind st.requests key).getD []
    let pruned := times.filter (fun t => decide (t > window_start))
    if (pruned.length : Int) ≥ limit then
      let oldest_request := listMin pruned
      let retry_after := oldest_request + window_seconds - now
      ((false, max retry_after 0), ⟨dictInsert st.requests key pruned⟩)
    else
      ((true, 0), ⟨dictInsert st.requests key (pruned ++ [now])⟩)

/-- `RateLimiter.get_remaining`: an unknown key reports the full limit and
leaves the store alone; a known key is pruned in place and reports the limit
minus the pruned count, floored at zero. -/
def get_remaining (settings : Settings) (st : RateLimiterState) (now : Int)
    (ip endpoint : String) : Int × RateLimiterState :=
  let key := ip ++ ":" ++ endpoint
  let limit := get_limit settings endpoint
  match dictFind st.requests key with
  | none => (limit, st)
  | some times =>
    let pruned := times.filter (fun t => decide (t > now - window_seconds))
    (max (limit - pruned.length) 0, ⟨dictInsert st.requests key pruned⟩)

/-- `RateLimiter.get_reset_time`: a global hint, `now` plus the window. -/
def get_reset_time (now : Int) : Int := now + window_seconds

/-- C8: `get_remaining` reports exactly the configured limit minus the
pruned count, floored at zero, so it is never negative and never above the
limit (for a nonnegative configured limit), and it records no new request
timestamp: every timestamp stored after the call was already stored before. -/
theorem c8_get_remaining_bounds (settings : Settings) (st : RateLimiterState)
    (now : Int) (ip endpoint : String)
    (hlim : 0 ≤ get_limit settings endpoint) :
    (get_remaining settings st now ip endpoint).1 =
      max 0 (get_limit settings endpoint -
        (((dictFind st.requests (ip ++ ":" ++ endpoint)).getD []).filter
          (fun t => decide (t > now - window_seconds))).length) ∧
    0 ≤ (get_remaining settings st now ip endpoint).1 ∧
    (get_remaining settings st now ip endpoint).1 ≤ get_limit settings endpoint ∧
    (∀ k t l', dictFind ((get_remaining settings st now ip endpoint).2).requests k = some l' →
      t ∈ l' → ∃ l, dictFind st.requests k = some l ∧ t ∈ l) := by
  cases hfind : dictFind st.requests (ip ++ ":" ++ endpoint) with
  | none =>
    refine ⟨?_, ?_, ?_, ?_⟩
    · simp [get_remaining, hfind]
      omega
    · simp [get_remaining, hfind]
      exact hlim
    · simp [get_remaining, hfind]
    · intro k t l' hk ht
      refine ⟨l', ?_, ht⟩
      simpa [get_remaining, hfind] using hk
  | some times =>
    refine ⟨?_, ?_, ?_, ?_⟩
    · simp [get_remaining, hfind]
      omega
    · simp [get_remaining, hfind]
    · simp [get_remaining, hfind]
      omega
    · intro k t l' hk ht
      have hk' : dictFind (dictInsert st.requests (ip ++ ":" ++ endpoint)
          (times.filter (fun t => decide (t > now - window_seconds)))) k = some l' := by
        simpa [get_remaining, hfind] using hk
      by_cases hkey : k = ip ++ ":" ++ endpoint
      · subst hkey
        rw [dictFind_insert_self] at hk'
        refine ⟨times, hfind, ?_⟩
        have hl : l' = times.filter (fun t => decide (t > now - window_seconds)) :=
          (Option.some.injEq _ _ ▸ hk').symm
        subst hl
        exact (List.mem_filter.mp ht).1
      · rw [dictFind_insert_ne _ _ _ _ hkey] at hk'
        exact ⟨l', hk', ht⟩

/-- Witness for C8 on the default configuration, a concrete store and clock. -/
theorem c8_get_remaining_bounds_witness :
    (get_remaining defaultSettings ⟨[("1.2.3.4:/health", [150, 100])]⟩
      1000 "1.2.3.4" "/health").1 = 99 := by
  have h := c8_get_remaining_bounds defaultSettings ⟨[("1.2.3.4:/health", [150, 100])]⟩
    1000 "1.2.3.4" "/health" (by decide)
  rw [h.1]
  decide

/-- C7 counterexample: the limiter keys its store by the colon-joined
composite string, so the two distinct (client, endpoint) pairs given by
client a:b with endpoint c, and client a with endpoint b:c, share one key;
a call on the first pair changes the stored timestamp window the second pair
reads (empty before, one timestamp after). -/
theorem c7_counterexample :
    (("a:b", "c") : String × String) ≠ ("a", "b:c") ∧
    ((dictFind ((check_rate_limit defaultSettings ⟨[]⟩ 0 "a:b" "c").2).requests
        ("a" ++ ":" ++ "b:c")).getD []) ≠
      ((dictFind (⟨[]⟩ : RateLimiterState).requests ("a" ++ ":" ++ "b:c")).getD []) := by
  decide

/-- C7 amended: for two pairs whose composite keys differ (in particular any
two distinct pairs whose client identifiers contain no colon), a call on the
first pair leaves the second pair's stored window untouched and does not
change the admit/deny outcome or retry-after of the second pair's next call. -/
theorem c7_amended_key_isolation (settings : Settings) (st : RateLimiterState)
    (now now2 : Int) (ip1 ep1 ip2 ep2 : String)
    (hkeys : ip1 ++ ":" ++ ep1 ≠ ip2 ++ ":" ++ ep2) :
    dictFind ((check_rate_limit settings st now ip1 ep1).2).requests (ip2 ++ ":" ++ ep2) =
      dictFind st.requests (ip2 ++ ":" ++ ep2) ∧
    (check_rate_limit settings ((check_rate_limit settings st now ip1 ep1).2) now2 ip2 ep2).1 =
      (check_rate_limit settings st now2 ip2 ep2).1 := by
  have hframe : dictFind ((check_rate_limit settings st now ip1 ep1).2).requests
      (ip2 ++ ":" ++ ep2) = dictFind st.requests (ip2 ++ ":" ++ ep2) := by
    unfold check_rate_limit
    dsimp only
    split
    · rfl
    · split
      · exact dictFind_insert_ne _ _ _ _ hkeys.symm
      · exact dictFind_insert_ne _ _ _ _ hkeys.symm
  refine ⟨hframe, ?_⟩
  by_cases hen : settings.RATE_LIMIT_ENABLED = true
  · conv_lhs => rw [check_rate_limit]
    conv_rhs => rw [check_rate_limit]
    dsimp only
    rw [hframe]
    simp only [hen, Bool.not_true]
    split
    · rfl
    · split <;> rfl
  · simp [check_rate_limit, hen]

/-- Witness for C7 on concrete distinct keys. -/
theorem c7_amended_key_isolation_witness :
    dictFind ((check_rate_limit defaultSettings ⟨[]⟩ 0 "1.1.1.1" "/health").2).requests
      ("2.2.2.2" ++ ":" ++ "/health") =
      dictFind (⟨[]⟩ : RateLimiterState).requests ("2.2.2.2" ++ ":" ++ "/health") ∧
    (check_rate_limit defaultSettings
      ((check_rate_limit defaultSettings ⟨[]⟩ 0 "1.1.1.1" "/health").2)
        7 "2.2.2.2" "/health").1 =
      (check_rate_limit defaultSettings ⟨[]⟩ 7 "2.2.2.2" "/health").1 := by
  exact c7_amended_key_isolation defaultSettings ⟨[]⟩ 0 7 "1.1.1.1" "/health"
    "2.2.2.2" "/health" (by decide)

/-- C6: with rate limiting enabled and an endpoint whose limit is 5, five
calls on one key from the empty store are all admitted; a sixth call within
the window of all five recorded timestamps is denied, with retry-after equal
to the oldest remaining timestamp plus the window minus now (floored at
zero), and strictly positive; and once the window has elapsed past all the
recorded timestamps, a call on the same key is admitted again. -/
theorem c6_limit_five_window (settings : Settings) (ip endpoint : String)
    (t1 t2 t3 t4 t5 t6 t7 : Int)
    (hen : settings.RATE_LIMIT_ENABLED = true)
    (hlim : get_limit settings endpoint = 5)
    (h12 : t1 ≤ t2) (h23 : t2 ≤ t3) (h34 : t3 ≤ t4) (h45 : t4 ≤ t5) (h56 : t5 ≤ t6)
    (hwin : t6 - window_seconds < t1) (h7 : t5 ≤ t7 - window_seconds) :
    check_rate_limit settings ⟨[]⟩ t1 ip endpoint =
      ((true, 0), ⟨[(ip ++ ":" ++ endpoint, [t1])]⟩) ∧
    check_rate_limit settings ⟨[(ip ++ ":" ++ endpoint, [t1])]⟩ t2 ip endpoint =
      ((true, 0), ⟨[(ip ++ ":" ++ endpoint, [t1, t2])]⟩) ∧
    check_rate_limit settings ⟨[(ip ++ ":" ++ endpoint, [t1, t2])]⟩ t3 ip endpoint =
      ((true, 0), ⟨[(ip ++ ":" ++ endpoint, [t1, t2, t3])]⟩) ∧
    check_rate_limit settings ⟨[(ip ++ ":" ++ endpoint, [t1, t2, t3])]⟩ t4 ip endpoint =
      ((true, 0), ⟨[(ip ++ ":" ++ endpoint, [t1, t2, t3, t4])]⟩) ∧
    check_rate_limit settings ⟨[(ip ++ ":" ++ endpoint, [t1, t2, t3, t4])]⟩ t5 ip endpoint =
      ((true, 0), ⟨[(ip ++ ":" ++ endpoint, [t1, t2, t3, t4, t5])]⟩) ∧
    check_rate_limit settings
        ⟨[(ip ++ ":" ++ endpoint, [t1, t2, t3, t4, t5])]⟩ t6 ip endpoint =
      ((false, max 0 (listMin [t1, t2, t3, t4, t5] + window_seconds - t6)),
        ⟨[(ip ++ ":" ++ endpoint, [t1, t2, t3, t4, t5])]⟩) ∧
    0 < max 0 (listMin [t1, t2, t3, t4, t5] + window_seconds - t6) ∧
    check_rate_limit settings
        ⟨[(ip ++ ":" ++ endpoint, [t1, t2, t3, t4, t5])]⟩ t7 ip endpoint =
      ((true, 0), ⟨[(ip ++ ":" ++ endpoint, [t7])]⟩) := by
  rw [window_seconds] at hwin h7
  have w21 : t1 > t2 - 900 := by omega
  have w31 : t1 > t3 - 900 := by omega
  have w32 : t2 > t3 - 900 := by omega
  have w41 : t1 > t4 - 900 := by omega
  have w42 : t2 > t4 - 900 := by omega
  have w43 : t3 > t4 - 900 := by omega
  have w51 : t1 > t5 - 900 := by omega
  have w52 : t2 > t5 - 900 := by omega
  have w53 : t3 > t5 - 900 := by omega
  have w54 : t4 > t5 - 900 := by omega
  have w61 : t1 > t6 - 900 := by omega
  have w62 : t2 > t6 - 900 := by omega
  have w63 : t3 > t6 - 900 := by omega
  have w64 : t4 > t6 - 900 := by omega
  have w65 : t5 > t6 - 900 := by omega
  have d1 : ¬ (t1 > t7 - 900) := by omega
  have d2 : ¬ (t2 > t7 - 900) := by omega
  have d3 : ¬ (t3 > t7 - 900) := by omega
  have d4 : ¬ (t4 > t7 - 900) := by omega
  have d5 : ¬ (t5 > t7 - 900) := by omega
  have hmin : listMin [t1, t2, t3, t4, t5] = t1 := by
    simp only [listMin]
    omega
  refine ⟨?_, ?_, ?_, ?_, ?_, ?_, ?_, ?_⟩
  · simp [check_rate_limit, hen, hlim, dictFind, dictInsert, window_seconds]
  · simp [check_rate_limit, hen, hlim, dictFind, dictInsert, window_seconds, w21]
  · simp [check_rate_limit, hen, hlim, dictFind, dictInsert, window_seconds, w31, w32]
  · simp [check_rate_limit, hen, hlim, dictFind, dictInsert, window_seconds,
      w41, w42, w43]
  · simp [check_rate_limit, hen, hlim, dictFind, dictInsert, window_seconds,
      w51, w52, w53, w54]
  · simp [check_rate_limit, hen, hlim, dictFind, dictInsert, window_seconds,
      w61, w62, w63, w64, w65, hmin]
    omega
  · rw [hmin, window_seconds]
    omega
  · simp [check_rate_limit, hen, hlim, dictFind, dictInsert, window_seconds,
      d1, d2, d3, d4, d5]

/-- Witness for C6 on the default configuration and a concrete clock. -/
theorem c6_limit_five_window_witness :
    check_rate_limit defaultSettings ⟨[]⟩ 0 "1.2.3.4" "/api/assessment/submit" =
      ((true, 0), ⟨[("1.2.3.4" ++ ":" ++ "/api/assessment/submit", [0])]⟩) ∧
    check_rate_limit defaultSettings
        ⟨[("1.2.3.4" ++ ":" ++ "/api/assessment/submit", [0, 1, 2, 3, 4])]⟩ 5
        "1.2.3.4" "/api/assessment/submit" =
      ((false, max 0 (listMin [0, 1, 2, 3, 4] + window_seconds - 5)),
        ⟨[("1.2.3.4" ++ ":" ++ "/api/assessment/submit", [0, 1, 2, 3, 4])]⟩) ∧
    0 < max 0 (listMin [0, 1, 2, 3, 4] + window_seconds - 5) ∧
    check_rate_limit defaultSettings
        ⟨[("1.2.3.4" ++ ":" ++ "/api/assessment/submit", [0, 1, 2, 3, 4])]⟩ 905
        "1.2.3.4" "/api/assessment/submit" =
      ((true, 0), ⟨[("1.2.3.4" ++ ":" ++ "/api/assessment/submit", [905])]⟩) := by
  have h := c6_limit_five_window defaultSettings "1.2.3.4" "/api/assessment/submit"
    0 1 2 3 4 5 905 (by decide) (by decide) (by decide) (by decide) (by decide)
    (by decide) (by decide) (by decide) (by decide)
  exact ⟨h.1, h.2.2.2.2.2.1, h.2.2.2.2.2.2.1, h.2.2.2.2.2.2.2⟩

/-- Witness for C2 at a concrete disqualified and a concrete qualified input. -/
theorem c2_reason_iff_disqualified_witness :
    determine_qualification_status (some false) none none =
      QualificationStatus.disqualified ∧
    get_disqualification_reason none (some "over-30k") none = none := by
  constructor
  · exact (c2_reason_iff_disqualified (some false) none none).1.mp
      ⟨"No budget allocated for treatment", by decide, by decide⟩
  · exact (c2_reason_iff_disqualified none (some "over-30k") none).2 (by decide)
